import Mathlib

/-!
Verification of the mobile deep-link redirect dispatcher embedded in the
generated affiliate preview pages (template in
`scripts/generate-affiliate-links.js`, DOMContentLoaded handler, lines
150-523, together with the pure helper `normalizeIntentLink`).

The JavaScript is shallowly embedded: strings are Lean `String`s manipulated
through structurally recursive functions on `List Char` (so that every
definition evaluates inside the kernel), JS `undefined`/`null` values are
`Option`, and the dispatcher is a pure function from its page inputs to the
ordered list of navigation events it issues (immediate `window.location`
assignments, `setTimeout`-scheduled fallbacks, and overlay tap handlers).
-/

set_option maxRecDepth 40000

namespace Affiliate

/-! ## Generic JS string primitives on `List Char` -/

/-- ASCII lowercasing of one character; models JS `String.prototype.toLowerCase`
on the ASCII keys and variants this code handles. -/
def lowerChar (c : Char) : Char :=
  if 'A' ≤ c ∧ c ≤ 'Z' then Char.ofNat (c.toNat + 32) else c

/-- JS `s.toLowerCase()`. -/
def lowerStr (s : String) : String := ⟨s.data.map lowerChar⟩

/-- JS `s.startsWith(p)`. -/
def jsStartsWith (p s : String) : Bool := p.data.isPrefixOf s.data

/-- JS `s.endsWith(p)`. -/
def jsEndsWith (p s : String) : Bool := p.data.isSuffixOf s.data

/-- JS whitespace for `String.prototype.trim` (the characters that occur in
this code's inputs). -/
def isJsSpace (c : Char) : Bool :=
  c = ' ' ∨ c = '\t' ∨ c = '\n' ∨ c = '\r'

/-- JS `s.trim()`. -/
def jsTrim (s : String) : String :=
  ⟨(((s.data.dropWhile isJsSpace).reverse.dropWhile isJsSpace).reverse)⟩

/-- One step of JS `String.prototype.split` with a non-empty string separator:
scan left to right, cutting at each non-overlapping occurrence.  `fuel` is an
upper bound on the number of characters consumed (the string length suffices);
it only makes the recursion structural. -/
def splitListAux (sep : List Char) : Nat → List Char → List Char → List (List Char)
  | _, [], acc => [acc.reverse]
  | 0, s, acc => [acc.reverse ++ s]
  | fuel + 1, c :: rest, acc =>
    if sep.isPrefixOf (c :: rest) then
      acc.reverse :: splitListAux sep fuel ((c :: rest).drop sep.length) []
    else
      splitListAux sep fuel rest (c :: acc)

/-- JS `s.split(sep)` for a non-empty literal separator. -/
def jsSplit (sep s : String) : List String :=
  (splitListAux sep.data s.data.length s.data []).map List.asString

/-- JS `s.replace(pat, repl)` with a plain-string pattern: replaces only the
first occurrence, or returns the string unchanged when the pattern is absent. -/
def replaceFirstAux (pat repl : List Char) : List Char → List Char
  | [] => []
  | c :: rest =>
    if pat.isPrefixOf (c :: rest) then repl ++ (c :: rest).drop pat.length
    else c :: replaceFirstAux pat repl rest

/-- JS `s.replace(pat, repl)` (string pattern, first occurrence only). -/
def jsReplaceFirst (pat repl s : String) : String :=
  ⟨replaceFirstAux pat.data repl.data s.data⟩

/-- Substring containment test (used only to state properties of outputs). -/
def containsSubAux (pat : List Char) : List Char → Bool
  | [] => pat.isPrefixOf []
  | c :: rest => pat.isPrefixOf (c :: rest) || containsSubAux pat rest

/-- `containsSubstr pat s` holds when `pat` occurs contiguously in `s`. -/
def containsSubstr (pat s : String) : Bool := containsSubAux pat.data s.data

/-! ## encodeURIComponent / decodeURIComponent -/

/-- Uppercase hexadecimal digit for `n < 16`, as emitted by
`encodeURIComponent`. -/
def hexDigit (n : Nat) : Char :=
  if n < 10 then Char.ofNat (48 + n) else Char.ofNat (55 + n)

/-- UTF-8 bytes of a Unicode code point (JS strings are encoded to UTF-8
before percent-encoding). -/
def utf8BytesOf (n : Nat) : List Nat :=
  if n < 0x80 then [n]
  else if n < 0x800 then [0xC0 + n / 64, 0x80 + n % 64]
  else if n < 0x10000 then [0xE0 + n / 4096, 0x80 + (n / 64) % 64, 0x80 + n % 64]
  else [0xF0 + n / 262144, 0x80 + (n / 4096) % 64, 0x80 + (n / 64) % 64, 0x80 + n % 64]

/-- The characters `encodeURIComponent` leaves unescaped:
`A-Z a-z 0-9 - _ . ! ~ * ' ( )`. -/
def uriUnreserved (c : Char) : Bool :=
  (65 ≤ c.toNat ∧ c.toNat ≤ 90) ∨ (97 ≤ c.toNat ∧ c.toNat ≤ 122) ∨
  (48 ≤ c.toNat ∧ c.toNat ≤ 57) ∨
  c = '-' ∨ c = '_' ∨ c = '.' ∨ c = '!' ∨ c = '~' ∨ c = '*' ∨ c = '(' ∨ c = ')' ∨
  c.toNat = 39

/-- JS `encodeURIComponent`. -/
def encodeURIComponent (s : String) : String :=
  ⟨s.data.flatMap fun c =>
    if uriUnreserved c then [c]
    else (utf8BytesOf c.toNat).flatMap fun b => ['%', hexDigit (b / 16), hexDigit (b % 16)]⟩

/-- Value of a hexadecimal digit character, if it is one. -/
def hexVal (c : Char) : Option Nat :=
  if 48 ≤ c.toNat ∧ c.toNat ≤ 57 then some (c.toNat - 48)
  else if 65 ≤ c.toNat ∧ c.toNat ≤ 70 then some (c.toNat - 55)
  else if 97 ≤ c.toNat ∧ c.toNat ≤ 102 then some (c.toNat - 87)
  else none

/-- Token stream for `decodeURIComponent`: literal characters interleaved with
percent-decoded bytes. -/
inductive DTok where
  | lit (c : Char)
  | byte (b : Nat)
deriving DecidableEq

/-- First pass of `decodeURIComponent`: turn `%HH` escapes into bytes.
`none` models the `URIError` thrown on a malformed escape. -/
def dTokens : List Char → Option (List DTok)
  | [] => some []
  | '%' :: h1 :: h2 :: rest =>
    match hexVal h1, hexVal h2 with
    | some a, some b => (dTokens rest).map (DTok.byte (16 * a + b) :: ·)
    | _, _ => none
  | '%' :: _ :: [] => none
  | '%' :: [] => none
  | c :: rest => if c = '%' then none else (dTokens rest).map (DTok.lit c :: ·)

/-- Is `b` a UTF-8 continuation byte? -/
def isCont (b : Nat) : Bool := 0x80 ≤ b ∧ b ≤ 0xBF

/-- Second pass of `decodeURIComponent`: strict UTF-8 decoding of the byte
groups (invalid sequences raise `URIError`, modelled as `none`). -/
def utf8DecodeToks : List DTok → Option (List Char)
  | [] => some []
  | .lit c :: rest => (utf8DecodeToks rest).map (c :: ·)
  | .byte b1 :: rest =>
    if b1 < 0x80 then (utf8DecodeToks rest).map (Char.ofNat b1 :: ·)
    else match rest with
    | .byte b2 :: rest2 =>
      if 0xC2 ≤ b1 ∧ b1 ≤ 0xDF then
        if isCont b2 then
          (utf8DecodeToks rest2).map (Char.ofNat ((b1 - 0xC0) * 64 + (b2 - 0x80)) :: ·)
        else none
      else match rest2 with
      | .byte b3 :: rest3 =>
        if 0xE0 ≤ b1 ∧ b1 ≤ 0xEF then
          if (if b1 = 0xE0 then 0xA0 ≤ b2 ∧ b2 ≤ 0xBF
              else if b1 = 0xED then 0x80 ≤ b2 ∧ b2 ≤ 0x9F
              else isCont b2 = true) ∧ isCont b3 then
            (utf8DecodeToks rest3).map
              (Char.ofNat ((b1 - 0xE0) * 4096 + (b2 - 0x80) * 64 + (b3 - 0x80)) :: ·)
          else none
        else match rest3 with
        | .byte b4 :: rest4 =>
          if 0xF0 ≤ b1 ∧ b1 ≤ 0xF4 then
            if (if b1 = 0xF0 then 0x90 ≤ b2 ∧ b2 ≤ 0xBF
                else if b1 = 0xF4 then 0x80 ≤ b2 ∧ b2 ≤ 0x8F
                else isCont b2 = true) ∧ isCont b3 ∧ isCont b4 then
              (utf8DecodeToks rest4).map
                (Char.ofNat ((b1 - 0xF0) * 262144 + (b2 - 0x80) * 4096 +
                  (b3 - 0x80) * 64 + (b4 - 0x80)) :: ·)
            else none
          else none
        | _ => none
      | _ => none
    | _ => none

/-- JS `decodeURIComponent`; `none` models a thrown `URIError`. -/
def decodeURIComponentJs (s : String) : Option String :=
  (dTokens s.data).bind fun toks => (utf8DecodeToks toks).map List.asString

example : jsSplit ";" "a;;b" = ["a", "", "b"] := by decide
example : jsSplit "#Intent;" "intent://foo#Intent;scheme=http;end" =
    ["intent://foo", "scheme=http;end"] := by decide
example : jsReplaceFirst ".html" "" "store.htmlx.html" = "storex.html" := by decide
example : lowerStr "AbC" = "abc" := by decide
example : jsTrim "  end " = "end" := by decide
example : containsSubstr "ob" "foobar" = true := by decide
example : containsSubstr "bo" "foobar" = false := by decide
example : encodeURIComponent "https://example.com/x" = "https%3A%2F%2Fexample.com%2Fx" := by
  decide
example : decodeURIComponentJs "foo%20bar" = some "foo bar" := by decide
example : decodeURIComponentJs "a%C3%A9b" = some "aéb" := by decide
example : decodeURIComponentJs "%ZZ" = none := by decide
example : decodeURIComponentJs "%C3" = none := by decide
example : decodeURIComponentJs "plain" = some "plain" := by decide

/-! ## Small regex models used by `normalizeIntentLink`

Each definition mirrors one literal regex from
`scripts/generate-affiliate-links.js`; the correspondence is noted on each. -/

/-- JS `s.replace(/^pat/, "")` for a literal anchored pattern: drop the prefix
when present, otherwise return the string unchanged. -/
def stripPrefixIf (p s : String) : String :=
  if jsStartsWith p s then ⟨s.data.drop p.data.length⟩ else s

/-- `s.replace(/^https?:\/\//, "")` (case-sensitive, as on lines 322, 329 and
353-355 of the source). -/
def stripHttpCS (s : String) : String :=
  if jsStartsWith "https://" s then ⟨s.data.drop 8⟩
  else if jsStartsWith "http://" s then ⟨s.data.drop 7⟩
  else s

/-- Case-insensitive `startsWith`, for the `/^https?:\/\//i` tests. -/
def startsWithCI (p s : String) : Bool :=
  jsStartsWith (lowerStr p) (lowerStr s)

/-- `s.replace(/^https?:\/\//i, "")`. -/
def stripHttpCI (s : String) : String :=
  if startsWithCI "https://" s then ⟨s.data.drop 8⟩
  else if startsWithCI "http://" s then ⟨s.data.drop 7⟩
  else s

/-- Inner helper `normalizeFallbackUrl` of `normalizeIntentLink` (source lines
286-291): `null` for falsy input, else trim and force an `https://` prefix.
`Option` stands for JS `null`/`undefined`, and a JS empty string is falsy. -/
def normalizeFallbackUrl (url : Option String) : Option String :=
  match url with
  | none => none
  | some s =>
    if s = "" then none
    else
      let t := jsTrim s
      if startsWithCI "http://" t || startsWithCI "https://" t then some t
      else some ("https://" ++ stripHttpCI t)

/-- Models the browser's `new URL(x)` success used by the inner `isValidUrl`
helper (source lines 293-295).  Only outputs of `normalizeFallbackUrl` reach
it, so the model covers absolute URLs: an `http(s)://` URL is valid when its
authority part is non-empty and free of whitespace; any other string is valid
when it has a `scheme:` prefix (first char a letter, then letters, digits,
`+`, `-` or `.` before the colon). -/
def isValidUrl (url : Option String) : Bool :=
  match url with
  | none => false
  | some s =>
    if startsWithCI "http://" s || startsWithCI "https://" s then
      let authority := (stripHttpCI s).data.takeWhile fun c => c ≠ '/' ∧ c ≠ '?' ∧ c ≠ '#'
      !authority.isEmpty && authority.all fun c => !(isJsSpace c)
    else
      let schemePart := s.data.takeWhile (· ≠ ':')
      let isSchemeChar := fun c : Char =>
        (65 ≤ c.toNat ∧ c.toNat ≤ 90) ∨ (97 ≤ c.toNat ∧ c.toNat ≤ 122) ∨
        (48 ≤ c.toNat ∧ c.toNat ≤ 57) ∨ c = '+' ∨ c = '-' ∨ c = '.'
      schemePart.length < s.data.length &&
      (match schemePart with
       | [] => false
       | c0 :: _ => ((65 ≤ c0.toNat ∧ c0.toNat ≤ 90) ∨ (97 ≤ c0.toNat ∧ c0.toNat ≤ 122) : Bool))
      && schemePart.all isSchemeChar

/-- Label characters accepted by the TLD test `/^[a-z0-9-]+(\.[a-z0-9-]+)+$/i`
after the host has been lowercased. -/
def isTldLabelChar (c : Char) : Bool :=
  (97 ≤ c.toNat ∧ c.toNat ≤ 122) ∨ (48 ≤ c.toNat ∧ c.toNat ≤ 57) ∨ c = '-'

/-- Inner helper `detectTldInIntent` (source lines 297-305): strip
`intent://`, keep everything before `#Intent`, take the leading run of
characters outside `/?#@` as the host (no match means `false`), lowercase it,
split on `.`, and test the last two labels with the TLD regex.  On a
two-label, dot-free pair that regex holds exactly when both labels are
non-empty and consist of `[a-z0-9-]` characters. -/
def detectTldInIntent (url : String) : Bool :=
  let beforeIntent := ((jsSplit "#Intent" (stripPrefixIf "intent://" url)).headD "")
  let hostRun := beforeIntent.data.takeWhile fun c =>
    c ≠ '/' ∧ c ≠ '?' ∧ c ≠ '#' ∧ c ≠ '@'
  if hostRun.isEmpty then false
  else
    let parts := splitListAux ['.'] hostRun.length (hostRun.map lowerChar) []
    if parts.length < 2 then false
    else (parts.drop (parts.length - 2)).all fun lbl =>
      !lbl.isEmpty && lbl.all isTldLabelChar

/-- First match of `/S\.browser_fallback_url=([^;]+)/` (source line 310): scan
for the first occurrence of the literal that is followed by at least one
non-`;` character, and capture the maximal such run (the regex engine skips an
occurrence whose capture would be empty and keeps searching). -/
def findFallbackCapture : List Char → Option (List Char)
  | [] => none
  | c :: rest =>
    if ("S.browser_fallback_url=").data.isPrefixOf (c :: rest) then
      let cap := ((c :: rest).drop 23).takeWhile (· ≠ ';')
      if cap.isEmpty then findFallbackCapture rest else some cap
    else findFallbackCapture rest

/-- Characters of the first capture class of
`/^([a-zA-Z0-9.-]+\.[a-zA-Z]{2,})/` (source line 329). -/
def isHostClassChar (c : Char) : Bool :=
  (65 ≤ c.toNat ∧ c.toNat ≤ 90) ∨ (97 ≤ c.toNat ∧ c.toNat ≤ 122) ∨
  (48 ≤ c.toNat ∧ c.toNat ≤ 57) ∨ c = '.' ∨ c = '-'

/-- Is `c` an ASCII letter (the `[a-zA-Z]{2,}` class)? -/
def isAsciiLetter (c : Char) : Bool :=
  (65 ≤ c.toNat ∧ c.toNat ≤ 90) ∨ (97 ≤ c.toNat ∧ c.toNat ≤ 122)

/-- Backtracking search for `/^([a-zA-Z0-9.-]+\.[a-zA-Z]{2,})/`: the greedy
first part tries lengths `L` from longest down to 1; at each `L` the next
character must be `.` followed by at least two letters, and the trailing
letter run is taken greedily. -/
def hostMatchAux (s : List Char) : Nat → Option (List Char)
  | 0 => none
  | l + 1 =>
    let tailRun := (s.drop (l + 1 + 1)).takeWhile isAsciiLetter
    if (s.take (l + 1)).all isHostClassChar ∧ s.drop (l + 1) ≠ [] ∧
        (s.drop (l + 1)).headD ' ' = '.' ∧ 2 ≤ tailRun.length then
      some (s.take (l + 1 + 1) ++ tailRun)
    else hostMatchAux s l

/-- `s.match(/^([a-zA-Z0-9.-]+\.[a-zA-Z]{2,})/)`, capture group 1. -/
def hostMatch (s : String) : Option String :=
  (hostMatchAux s.data s.data.length).map List.asString

/-- `fallbackHost` computed on source lines 329-330: match the host regex
against the fallback with any `http(s)://` prefix removed; on failure use the
whole stripped string. -/
def fallbackHostOf (fallback : String) : String :=
  match hostMatch (stripHttpCS fallback) with
  | some m => m
  | none => stripHttpCS fallback

/-- `s.replace(/^com\.[a-zA-Z0-9._-]+:\/\//, "")` (source line 350).  The
character class excludes `:` and `/`, so the greedy run is exactly the maximal
class run after `com.`, which must be non-empty and followed by `://`. -/
def comStrip (url : String) : String :=
  if jsStartsWith "com." url then
    let afterCom := url.data.drop 4
    let run := afterCom.takeWhile fun c =>
      (65 ≤ c.toNat ∧ c.toNat ≤ 90) ∨ (97 ≤ c.toNat ∧ c.toNat ≤ 122) ∨
      (48 ≤ c.toNat ∧ c.toNat ≤ 57) ∨ c = '.' ∨ c = '_' ∨ c = '-'
    if !run.isEmpty && ("://").data.isPrefixOf (afterCom.drop run.length) then
      ⟨afterCom.drop (run.length + 3)⟩
    else url
  else url

/-- `s.replace(/;;+/g, ";")` (source lines 341 and 358): every maximal run of
two or more semicolons becomes a single one.  The boolean argument records
whether the previous character was a semicolon. -/
def collapseSemisAux : Bool → List Char → List Char
  | _, [] => []
  | prevSemi, c :: rest =>
    if c = ';' then
      if prevSemi then collapseSemisAux true rest
      else ';' :: collapseSemisAux true rest
    else c :: collapseSemisAux false rest

/-- Collapse repeated `;` separators, as the final `replace(/;;+/g, ";")`. -/
def collapseSemis (s : String) : String := ⟨collapseSemisAux false s.data⟩

/-- JS `parts.join(";")`. -/
def joinSemi : List String → String
  | [] => ""
  | [s] => s
  | s :: rest => s ++ ";" ++ joinSemi rest

example : stripPrefixIf "intent://" "intent://foo" = "foo" := by decide
example : detectTldInIntent "intent://foo#Intent;scheme=http;end" = false := by decide
example : detectTldInIntent "intent://example.com/p#Intent;end" = true := by decide
example : findFallbackCapture ("a;S.browser_fallback_url=;S.browser_fallback_url=x;end").data
    = some ['x'] := by decide
example : hostMatch "example.com/x" = some "example.com" := by decide
example : hostMatch "localhost/x" = none := by decide
example : comStrip "com.example.app://path/123" = "path/123" := by decide
example : collapseSemis "a;;b;;;c;d" = "a;b;c;d" := by decide

/-! ## `normalizeIntentLink` (source lines 253-370) -/

/-- Parameter filter of the `intent://` branch (source lines 273-279): drop
`package=`, `component=` and parts whose trimmed form starts with `end`, then
force every `scheme=` part to `scheme=https` (the extracted scheme is
discarded; `scheme` is the constant `"https"` on line 269). -/
def filteredPartsOf (intentPart : String) : List String :=
  ((jsSplit ";" intentPart).filter fun part =>
    !(jsStartsWith "package=" part) && !(jsStartsWith "component=" part) &&
    !(jsStartsWith "end" (jsTrim part))).map fun part =>
    if jsStartsWith "scheme=" part then "scheme=https" else part

/-- The `intent://` branch of `normalizeIntentLink` (source lines 262-346).
The block runs inside `try { ... } catch { return url; }`; the only statement
that can throw is `decodeURIComponent`, so a failed decode returns `url`. -/
def normalizeIntentPart (url fallback : String) : String :=
  let parts := jsSplit "#Intent;" url
  let pfx := parts.headD ""
  match (parts.drop 1).head? with
  | none => url
  | some intentPart =>
    if intentPart = "" then url
    else
      let filteredParts := filteredPartsOf intentPart
      let originalPath := stripPrefixIf "intent://" pfx
      let isTld := detectTldInIntent url
      let normalizedPath :=
        if isTld then originalPath
        else fallbackHostOf fallback ++ "/" ++ originalPath
      let base := "intent://" ++ normalizedPath ++ "#Intent;" ++ joinSemi filteredParts ++
        ";action=android.intent.action.VIEW"
      match findFallbackCapture url.data with
      | some cap =>
        match decodeURIComponentJs ⟨cap⟩ with
        | none => url
        | some decoded =>
          -- Source lines 312-318 compute a validated replacement fallback;
          -- it is bound here exactly as in the source but never emitted,
          -- because the append on line 337 is guarded by
          -- `!existingFallbackMatch`.
          let bf0 := normalizeFallbackUrl (some decoded)
          let _browserFallback := if isValidUrl bf0 then bf0
            else normalizeFallbackUrl (some fallback)
          collapseSemis (base ++ ";end")
      | none =>
        let browserFallback :=
          if jsStartsWith "https://" fallback then fallback
          else "https://" ++ stripHttpCS fallback
        collapseSemis (base ++ ";S.browser_fallback_url=" ++
          encodeURIComponent browserFallback ++ ";end")

/-- The `com.*://` branch of `normalizeIntentLink` (source lines 348-361). -/
def normalizeComScheme (url fallback : String) : String :=
  let path := comStrip url
  let browserFallback :=
    if jsStartsWith "https://" fallback then fallback
    else "https://" ++ stripHttpCS fallback
  collapseSemis ("intent://" ++ path ++
    "#Intent;scheme=https;action=android.intent.action.VIEW;S.browser_fallback_url=" ++
    encodeURIComponent browserFallback ++ ";end")

/-- Body of `normalizeIntentLink` for a truthy string input: dispatch on the
`intent://` and `/^com\./` shapes, otherwise return the URL unchanged
(source lines 262, 349, 363-364). -/
def normalizeIntentLinkStr (url fallback : String) : String :=
  if jsStartsWith "intent://" url then normalizeIntentPart url fallback
  else if jsStartsWith "com." url then normalizeComScheme url fallback
  else url

/-- `normalizeIntentLink(url, fallback)` (source lines 253-370).  `none`
models a JS `undefined`/`null` argument; `if (!url) return url` also returns
an empty string unchanged. -/
def normalizeIntentLink (url : Option String) (fallback : String) : Option String :=
  match url with
  | none => none
  | some u => if u = "" then some "" else some (normalizeIntentLinkStr u fallback)

example : normalizeIntentLink none "https://e.com" = none := by decide
example :
    normalizeIntentLinkStr "intent://foo#Intent;package=com.bar;scheme=http;end"
      "https://example.com/x" =
    "intent://example.com/foo#Intent;scheme=https;action=android.intent.action.VIEW;S.browser_fallback_url=https%3A%2F%2Fexample.com%2Fx;end" := by
  decide
example :
    normalizeIntentLinkStr "com.example.app://path/123" "https://example.com/x" =
    "intent://path/123#Intent;scheme=https;action=android.intent.action.VIEW;S.browser_fallback_url=https%3A%2F%2Fexample.com%2Fx;end" := by
  decide
example :
    normalizeIntentLinkStr
      "intent://example.com/p#Intent;scheme=https;S.browser_fallback_url=foo bar;end"
      "https://example.com/x" =
    "intent://example.com/p#Intent;scheme=https;S.browser_fallback_url=foo bar;action=android.intent.action.VIEW;end" := by
  decide

/-! ## The redirect dispatcher (DOMContentLoaded handler, source lines 150-523)

The handler is modelled as a pure function from its inputs to the ordered
list of top-level navigations it issues.  `window.location.replace(x)` and
`window.location.href = x` become events; `setTimeout` fallbacks become
events tagged with their delay; the tap-to-continue overlays become events
tagged `overlayTap` (their hidden-iframe deep-link fire is not a top-level
navigation and is not an event).  A JS `undefined` assigned to
`window.location.href` is an event whose destination is `none`. -/

/-- Which `window.location` primitive issued the navigation. -/
inductive NavKind where
  | replaceK
  | hrefK
deriving DecidableEq

/-- When a navigation fires: immediately, from an unconditional `setTimeout`,
from a `setTimeout` guarded by `Date.now() - now < limit`, or from the
overlay tap handler (which navigates `afterMs` after the tap). -/
inductive Timing where
  | now
  | timer (delayMs : Nat)
  | timerIfFast (delayMs limit : Nat)
  | overlayTap (afterMs : Nat)
deriving DecidableEq

/-- One top-level navigation issued by the dispatcher. -/
structure NavEvent where
  kind : NavKind
  timing : Timing
  dest : Option String
deriving DecidableEq

/-- The memoized user-agent classification (source lines 151-168).  The five
booleans are computed once from independent regex tests on the user agent, so
any combination can occur; they are never recomputed mid-flow. -/
structure NavContext where
  isIOS : Bool
  isAndroid : Bool
  isMobile : Bool
  isAppBrowser : Bool
  isChromiumAndroid : Bool
deriving DecidableEq

/-- The pieces of `new URL(window.location.href)` that the handler reads:
`url.searchParams.get('variant')`, `url.hash`, `window.location.pathname` and
`url.searchParams.get('skipredirect')` (`none` models an absent parameter). -/
structure PageUrl where
  queryVariant : Option String
  hash : String
  pathname : String
  skipredirectParam : Option String

/-- JS object property read `o[k]` on a parsed-JSON object, modelled as an
insertion-ordered association list with the first binding of a key winning;
`none` is `undefined`. -/
def jsGet {α : Type} : List (String × α) → String → Option α
  | [], _ => none
  | p :: rest, k => if p.1 = k then some p.2 else jsGet rest k

/-- A `VariantMap`: the JSON object for one product, mapping variant keys and
`*_deeplink_ios` / `*_deeplink_android` keys to URL strings. -/
abbrev VariantMap := List (String × String)

/-- The fetched `amazonLinks.json` document: `productKey → VariantMap`. -/
abbrev LinkTable := List (String × VariantMap)

/-- `url.hash.match(/[?&]variant=([^&]*)/)`, capture group 1 (source line
377): the first `?` or `&` followed by the literal `variant=`, capturing a
possibly empty run of non-`&` characters. -/
def hashVariantMatch : List Char → Option String
  | [] => none
  | c :: rest =>
    if (c = '?' ∨ c = '&') ∧ ("variant=").data.isPrefixOf rest then
      some ⟨(rest.drop 8).takeWhile (· ≠ '&')⟩
    else hashVariantMatch rest

/-- `window.location.pathname.split('/').pop()` (source line 383); `split`
always yields at least one element, so `pop` is total. -/
def lastSegment (pathname : String) : String :=
  (jsSplit "/" pathname).getLastD ""

/-- JS truthiness of a string variable that may be `undefined`: falsy when
absent or empty. -/
def jsFalsyOptStr : Option String → Bool
  | none => true
  | some s => s = ""

/-- The variant the handler settles on (source lines 375-389): the query
parameter if truthy, else a `variant=` entry in the fragment, else - for
`amzn` pages only - the page filename with the first `.html` removed unless
that result is `index`; finally `variant = variant || ""`. -/
def effectiveVariant (productKey : String) (page : PageUrl) : String :=
  let v1 := page.queryVariant
  let v2 := if jsFalsyOptStr v1 then
      match hashVariantMatch page.hash.data with
      | some m => some m
      | none => v1
    else v1
  let v3 := if productKey = "amzn" ∧ jsFalsyOptStr v2 then
      let filename := jsReplaceFirst ".html" "" (lastSegment page.pathname)
      if filename ≠ "index" then some filename else v2
    else v2
  match v3 with
  | some s => s
  | none => ""

/-- `validKeys` (source lines 439-441): the keys of the `VariantMap` that are
not deep-link keys, in insertion order. -/
def validKeysOf (productLinks : VariantMap) : List String :=
  (productLinks.map Prod.fst).filter fun k =>
    !(jsEndsWith "_deeplink_ios" k) && !(jsEndsWith "_deeplink_android" k)

/-- `targetKey` (source lines 442-444): the *supplied* variant whenever it is
truthy and matches some filtered key case-insensitively, otherwise
`validKeys[0]` (`none` models `undefined` when `validKeys` is empty). -/
def targetKeyOf (productLinks : VariantMap) (variant : String) : Option String :=
  if variant ≠ "" ∧
      ((validKeysOf productLinks).find? fun k => lowerStr k = lowerStr variant).isSome then
    some variant
  else (validKeysOf productLinks).head?

/-- JS coercion of a possibly-`undefined` key in a property access or string
concatenation: `undefined` becomes the string `"undefined"`. -/
def jsKeyStr : Option String → String
  | some s => s
  | none => "undefined"

/-- `targetLink = productLinks[targetKey] || '/'` (source line 445). -/
def targetLinkOf (productLinks : VariantMap) (targetKey : Option String) : String :=
  match jsGet productLinks (jsKeyStr targetKey) with
  | some v => if v = "" then "/" else v
  | none => "/"

/-- The empty-variant early exit (source lines 398-411): `home` goes to `/`,
`amzn` returns without navigating, and both the `product/`-prefixed and the
default branch build `"/" + productKey + "/"`. -/
def emptyVariantEvents (productKey : String) : List NavEvent :=
  if productKey = "home" then [⟨.replaceK, .now, some "/"⟩]
  else if productKey = "amzn" then []
  else [⟨.replaceK, .now, some ("/" ++ productKey ++ "/")⟩]

/-- The absolute URL hard-coded in both in-app-browser fallback timers
(source lines 470 and 500). -/
def siteHomeUrl : String := "https://www.outdoorsavannah.com"

/-- The branch taken once the `LinkTable` fetch succeeded and the product was
found (source lines 439-522), as the list of navigations it issues. -/
def postFetchEvents (ctx : NavContext) (productLinks : VariantMap)
    (variant : String) : List NavEvent :=
  let targetKey := targetKeyOf productLinks variant
  let targetLink := targetLinkOf productLinks targetKey
  if !ctx.isMobile then [⟨.replaceK, .now, some targetLink⟩]
  else if ctx.isAndroid then
    if ctx.isAppBrowser then
      let deeplinkAndroid := jsGet productLinks (jsKeyStr targetKey ++ "_deeplink_android")
      [⟨.hrefK, .now, normalizeIntentLink deeplinkAndroid targetLink⟩,
       ⟨.replaceK, .timer 2400, some siteHomeUrl⟩]
    else if ctx.isChromiumAndroid then
      let deeplinkAndroid := jsGet productLinks (jsKeyStr targetKey ++ "_deeplink_android")
      [⟨.hrefK, .now, deeplinkAndroid⟩,
       ⟨.replaceK, .overlayTap 20, some targetLink⟩,
       ⟨.replaceK, .timerIfFast 900 1200, some targetLink⟩]
    else [⟨.hrefK, .now, some targetLink⟩]
  else if ctx.isIOS then
    if ctx.isAppBrowser then
      [⟨.hrefK, .now, some ("x-safari-" ++ targetLink)⟩,
       ⟨.replaceK, .timer 2400, some siteHomeUrl⟩]
    else
      [⟨.replaceK, .overlayTap 50, some targetLink⟩,
       ⟨.hrefK, .timerIfFast 900 1200, some targetLink⟩]
  else [⟨.replaceK, .now, some targetLink⟩]

/-- The whole DOMContentLoaded handler (source lines 372-523) as the ordered
list of top-level navigations it issues.  `fetched` is the outcome of
`fetch('/amazonLinks.json')` followed by `res.json()`: `none` when either
rejects.  Timer events are listed unconditionally; a timer that would be
cancelled by the page being torn down simply never fires in the browser. -/
def dispatch (productKey : String) (page : PageUrl) (ctx : NavContext)
    (fetched : Option LinkTable) : List NavEvent :=
  let variant := effectiveVariant productKey page
  let skipRedirect := page.skipredirectParam = some "true"
  if skipRedirect then []
  else if variant = "" then emptyVariantEvents productKey
  else
    match fetched with
    | none => [⟨.replaceK, .now, some "/"⟩]
    | some amazonLinks =>
      match jsGet amazonLinks productKey with
      | none => [⟨.replaceK, .now, some "/"⟩]
      | some productLinks => postFetchEvents ctx productLinks variant

/-- The `VariantMap` the run resolves (empty when the fetch failed or the
product is missing; those runs never read it). -/
def resolvedProductLinks (productKey : String) (fetched : Option LinkTable) : VariantMap :=
  match fetched with
  | none => []
  | some amazonLinks => (jsGet amazonLinks productKey).getD []

/-- The `targetKey` a run resolves, as a function of the dispatcher inputs. -/
def resolvedTargetKey (productKey : String) (page : PageUrl)
    (fetched : Option LinkTable) : Option String :=
  targetKeyOf (resolvedProductLinks productKey fetched) (effectiveVariant productKey page)

/-- The `targetLink` a run resolves, as a function of the dispatcher inputs. -/
def resolvedTargetLink (productKey : String) (page : PageUrl)
    (fetched : Option LinkTable) : String :=
  targetLinkOf (resolvedProductLinks productKey fetched)
    (resolvedTargetKey productKey page fetched)

/-- The Android deep-link field the run would read, as a function of the
dispatcher inputs. -/
def resolvedDeeplinkAndroid (productKey : String) (page : PageUrl)
    (fetched : Option LinkTable) : Option String :=
  jsGet (resolvedProductLinks productKey fetched)
    (jsKeyStr (resolvedTargetKey productKey page fetched) ++ "_deeplink_android")

example :
    effectiveVariant "amzn" ⟨none, "", "/affiliate/amzn/store.html", none⟩ = "store" := by
  decide
example :
    effectiveVariant "amzn" ⟨none, "#x?variant=abc", "/affiliate/amzn/store.html", none⟩ =
      "abc" := by decide
example :
    effectiveVariant "amzn" ⟨none, "", "/affiliate/amzn/index.html", none⟩ = "" := by decide
example :
    dispatch "product/leash" ⟨none, "", "/affiliate/leash.html", none⟩
      ⟨false, false, false, false, false⟩ none =
      [⟨.replaceK, .now, some "/product/leash/"⟩] := by decide
example :
    dispatch "amzn" ⟨some "store", "", "/affiliate/amzn/store.html", none⟩
      ⟨false, false, false, false, false⟩
      (some [("amzn", [("store", "https://www.amazon.com/shop/x")])]) =
      [⟨.replaceK, .now, some "https://www.amazon.com/shop/x"⟩] := by decide

/-! ## Shared concrete fixtures and contexts -/

/-- A desktop browsing context: every user-agent test is false. -/
def desktopCtx : NavContext := ⟨false, false, false, false, false⟩

/-- Android inside an app-embedded browser. -/
def androidInAppCtx : NavContext := ⟨false, true, true, true, false⟩

/-- Android in a standalone Chromium-family browser. -/
def androidChromiumCtx : NavContext := ⟨false, true, true, false, true⟩

/-- iOS in a standalone browser (Safari or other). -/
def iosStandaloneCtx : NavContext := ⟨true, false, true, false, false⟩

/-- A `VariantMap` whose only key has an uppercase letter. -/
def c1ProductLinks : VariantMap :=
  [("Store", "https://www.amazon.com/shop/outdoorsavannah")]

/-- A `LinkTable` carrying `c1ProductLinks` under `amzn`. -/
def c1Table : LinkTable := [("amzn", c1ProductLinks)]

/-- The preview page URL with a given `variant` query parameter. -/
def c1Page (v : String) : PageUrl := ⟨some v, "", "/affiliate/amzn/store.html", none⟩

/-- A `VariantMap` with one plain web URL and no deep-link keys. -/
def c3ProductLinks : VariantMap :=
  [("store", "https://www.amazon.com/shop/outdoorsavannah")]

/-- A `LinkTable` carrying `c3ProductLinks` under `amzn`. -/
def c3Table : LinkTable := [("amzn", c3ProductLinks)]

/-- The preview page for the `store` variant. -/
def c3Page : PageUrl := ⟨some "store", "", "/affiliate/amzn/store.html", none⟩

/-! ## Claim theorems -/

/-- The output `normalizeIntentLink` produces on claim C4's input. -/
def c4Expected : String :=
  "intent://example.com/foo#Intent;scheme=https;action=android.intent.action.VIEW;S.browser_fallback_url=https%3A%2F%2Fexample.com%2Fx;end"

/-- C4: on the input
`("intent://foo#Intent;package=com.bar;scheme=http;end", "https://example.com/x")`,
`normalizeIntentLink` returns an `intent://` URL with the `package=`
parameter removed, `scheme=https`, an `S.browser_fallback_url` parameter that
URL-encodes `https://example.com/x`, exactly one trailing `;end`, and no
repeated `;` separators. -/
theorem c4_intent_repair_example :
    normalizeIntentLink (some "intent://foo#Intent;package=com.bar;scheme=http;end")
        "https://example.com/x" = some c4Expected
    ∧ containsSubstr "package=" c4Expected = false
    ∧ containsSubstr "scheme=https" c4Expected = true
    ∧ containsSubstr
        ("S.browser_fallback_url=" ++ encodeURIComponent "https://example.com/x")
        c4Expected = true
    ∧ jsEndsWith ";end" c4Expected = true
    ∧ containsSubstr ";;" c4Expected = false
    ∧ containsSubstr ";end;end" c4Expected = false := by
  decide

/-- C5: on the input `("com.example.app://path/123", "https://example.com/x")`,
`normalizeIntentLink` returns exactly
`intent://path/123#Intent;scheme=https;action=android.intent.action.VIEW;S.browser_fallback_url=`
followed by the URL-encoding of `https://example.com/x` and `;end`. -/
theorem c5_com_scheme_example :
    normalizeIntentLink (some "com.example.app://path/123") "https://example.com/x" =
      some ("intent://path/123#Intent;scheme=https;action=android.intent.action.VIEW;S.browser_fallback_url="
        ++ encodeURIComponent "https://example.com/x" ++ ";end")
    ∧ encodeURIComponent "https://example.com/x" = "https%3A%2F%2Fexample.com%2Fx" := by
  decide

/-- C1: the claim demands that a variant matching a filtered key
case-insensitively resolves `targetLink` to that key's stored web URL for
*every* casing of the supplied variant.  The code sets `targetKey` to the
supplied variant rather than to the key the case-insensitive `find` located
(source lines 442-444), so the follow-up lookup `productLinks[targetKey]`
misses whenever the casings differ and `targetLink` silently falls back to
`/`: with the single key `"Store"`, the variant `"store"` matches
case-insensitively yet resolves to `/`, while the exact casing `"Store"`
resolves to the stored URL. -/
theorem c1_case_insensitive_resolution_broken :
    ((validKeysOf c1ProductLinks).find? fun k => lowerStr k = lowerStr "store")
        = some "Store"
    ∧ jsGet c1ProductLinks "Store" = some "https://www.amazon.com/shop/outdoorsavannah"
    ∧ targetKeyOf c1ProductLinks "store" = some "store"
    ∧ targetLinkOf c1ProductLinks (targetKeyOf c1ProductLinks "store") = "/"
    ∧ dispatch "amzn" (c1Page "store") desktopCtx (some c1Table) =
        [⟨.replaceK, .now, some "/"⟩]
    ∧ dispatch "amzn" (c1Page "Store") desktopCtx (some c1Table) =
        [⟨.replaceK, .now, some "https://www.amazon.com/shop/outdoorsavannah"⟩] := by
  decide

/-- An intent URL whose existing `S.browser_fallback_url` value (`foo bar`)
does not parse as an absolute URL even after `https://` normalization. -/
def c2Url : String :=
  "intent://example.com/p#Intent;scheme=https;S.browser_fallback_url=foo bar;end"

/-- C2: the claim (and the spec) demand that an invalid existing
`S.browser_fallback_url` be replaced by one derived from `fallbackWebUrl`.
The code detects the invalid value and computes the replacement (source lines
311-318, logging that it will use the default), but the append of the
replacement on line 337 is guarded by `!existingFallbackMatch`, so the
original invalid parameter rides through unchanged in `filteredParts` and
nothing derived from `fallbackWebUrl` is emitted. -/
theorem c2_invalid_existing_fallback_kept :
    findFallbackCapture c2Url.data = some ("foo bar").data
    ∧ isValidUrl (normalizeFallbackUrl (some "foo bar")) = false
    ∧ normalizeIntentLink (some c2Url) "https://example.com/x" =
        some "intent://example.com/p#Intent;scheme=https;S.browser_fallback_url=foo bar;action=android.intent.action.VIEW;end"
    ∧ containsSubstr "S.browser_fallback_url=foo bar"
        (normalizeIntentLinkStr c2Url "https://example.com/x") = true
    ∧ containsSubstr (encodeURIComponent "https://example.com/x")
        (normalizeIntentLinkStr c2Url "https://example.com/x") = false := by
  decide

/-- C3 counterexample: in the Android in-app branch, a variant with a plain
web URL and no deep-link keys resolves `targetLink` to the plain entry, but
the branch's fallback timer (source lines 469-471) navigates to the absolute
site home URL, not to `targetLink`, so the claim's "eventually navigates the
page to targetLink" fails for that branch. -/
theorem c3_counterexample_android_inapp_timer :
    resolvedTargetLink "amzn" c3Page (some c3Table) =
      "https://www.amazon.com/shop/outdoorsavannah"
    ∧ dispatch "amzn" c3Page androidInAppCtx (some c3Table) =
        [⟨.hrefK, .now, none⟩, ⟨.replaceK, .timer 2400, some siteHomeUrl⟩]
    ∧ siteHomeUrl ≠ "https://www.amazon.com/shop/outdoorsavannah" := by
  decide

/-- C7: with `skipredirect=true` in the query string the handler returns
before any navigation, any fetch and any timer registration (source lines
394-396), so the run issues zero navigation events. -/
theorem c7_skipRedirect_no_navigation (productKey : String) (page : PageUrl)
    (ctx : NavContext) (fetched : Option LinkTable)
    (h : page.skipredirectParam = some "true") :
    dispatch productKey page ctx fetched = [] := by
  simp [dispatch, h]

/-- Witness for C7 at a concrete input. -/
theorem c7_skipRedirect_no_navigation_witness :
    dispatch "amzn" ⟨some "store", "", "/affiliate/amzn/store.html", some "true"⟩
      ⟨true, true, true, true, true⟩ (some c3Table) = [] :=
  c7_skipRedirect_no_navigation "amzn"
    ⟨some "store", "", "/affiliate/amzn/store.html", some "true"⟩
    ⟨true, true, true, true, true⟩ (some c3Table) rfl

/-- C8: with `skipRedirect` unset and a non-empty variant, a rejected fetch of
`/amazonLinks.json` (or a body that fails to parse) makes the handler issue
exactly one navigation, to the site root `/`, and nothing else - no retry, no
timer (source lines 413-421). -/
theorem c8_fetch_failure_single_root_navigation (productKey : String)
    (page : PageUrl) (ctx : NavContext)
    (hskip : page.skipredirectParam ≠ some "true")
    (hvar : effectiveVariant productKey page ≠ "") :
    dispatch productKey page ctx none = [⟨.replaceK, .now, some "/"⟩] := by
  simp [dispatch, hskip, hvar]

/-- Witness for C8 at a concrete input. -/
theorem c8_fetch_failure_single_root_navigation_witness :
    dispatch "amzn" c3Page androidInAppCtx none = [⟨.replaceK, .now, some "/"⟩] :=
  c8_fetch_failure_single_root_navigation "amzn" c3Page androidInAppCtx
    (by decide) (by decide)

/-- The transformation claim C10 ascribes to the code, written from the
claim's words: remove a `.html` *suffix* from the last path segment. -/
def specSuffixHtmlRemoved (s : String) : String :=
  if jsEndsWith ".html" s then ⟨s.data.take (s.data.length - 5)⟩ else s

/-- C10 counterexample: the code removes the *first occurrence* of `.html`
anywhere in the segment (JS `replace` with a string pattern, source line
383), not a suffix.  On the segment `store.htmlx` the claimed suffix removal
leaves it unchanged, while the dispatcher derives the variant `storex`. -/
theorem c10_counterexample_midstring_html :
    lastSegment "/affiliate/amzn/store.htmlx" = "store.htmlx"
    ∧ specSuffixHtmlRemoved "store.htmlx" = "store.htmlx"
    ∧ jsReplaceFirst ".html" "" "store.htmlx" = "storex"
    ∧ effectiveVariant "amzn" ⟨none, "", "/affiliate/amzn/store.htmlx", none⟩ = "storex"
    ∧ ("storex" : String) ≠ "store.htmlx" := by
  decide

/-- C10 (amended): for `amzn` pages, when neither the query string's variant
parameter nor a `variant=` entry in the URL fragment is present, the
dispatcher derives the variant from the last path segment with the *first
occurrence* of `.html` removed - unless that result is `index`, in which
case the variant stays empty and the run issues no navigation (source lines
382-387 and 398-411). -/
theorem c10_amzn_filename_variant (page : PageUrl) (ctx : NavContext)
    (fetched : Option LinkTable)
    (hq : page.queryVariant = none)
    (hh : hashVariantMatch page.hash.data = none)
    (hskip : page.skipredirectParam ≠ some "true") :
    effectiveVariant "amzn" page =
      (if jsReplaceFirst ".html" "" (lastSegment page.pathname) = "index" then ""
       else jsReplaceFirst ".html" "" (lastSegment page.pathname))
    ∧ (jsReplaceFirst ".html" "" (lastSegment page.pathname) = "index" →
        dispatch "amzn" page ctx fetched = []) := by
  have hev : effectiveVariant "amzn" page =
      (if jsReplaceFirst ".html" "" (lastSegment page.pathname) = "index" then ""
       else jsReplaceFirst ".html" "" (lastSegment page.pathname)) := by
    by_cases hidx : jsReplaceFirst ".html" "" (lastSegment page.pathname) = "index"
    · simp [effectiveVariant, hq, hh, jsFalsyOptStr, hidx]
    · simp [effectiveVariant, hq, hh, jsFalsyOptStr, hidx]
  refine ⟨hev, fun hidx => ?_⟩
  have hv0 : effectiveVariant "amzn" page = "" := by rw [hev, if_pos hidx]
  simp [dispatch, hskip, hv0, emptyVariantEvents]

/-- A key that `jsGet` finds is among the object's keys. -/
theorem mem_keys_of_jsGet_some {α : Type} {o : List (String × α)} {k : String}
    {v : α} (h : jsGet o k = some v) : k ∈ o.map Prod.fst := by
  induction o with
  | nil => simp [jsGet] at h
  | cons p rest ih =>
    by_cases hp : p.1 = k
    · simp [hp]
    · rw [jsGet] at h
      rw [if_neg hp] at h
      simp [ih h]

/-- `find?` succeeds when some member satisfies the predicate. -/
theorem find?_isSome_of_mem {p : String → Bool} {l : List String} {a : String}
    (ha : a ∈ l) (hp : p a = true) : (l.find? p).isSome = true := by
  induction l with
  | nil => cases ha
  | cons b rest ih =>
    cases hb : p b with
    | true => simp [List.find?, hb]
    | false =>
      rcases List.mem_cons.mp ha with hab | ha2
      · rw [← hab] at hb
        rw [hp] at hb
        cases hb
      · simp [List.find?, hb, ih ha2]

/-- A variant carried verbatim in the query string survives variant
resolution whenever it is non-empty. -/
theorem effectiveVariant_query {productKey v : String} (hv : v ≠ "")
    (hash pathname : String) (sp : Option String) :
    effectiveVariant productKey ⟨some v, hash, pathname, sp⟩ = v := by
  simp [effectiveVariant, jsFalsyOptStr, hv]

/-- When the supplied variant is itself a non-deep-link key of the
`VariantMap`, `targetKey` resolves to it. -/
theorem targetKeyOf_exact {productLinks : VariantMap} {variant : String}
    {link : String} (hv : variant ≠ "")
    (hl : jsGet productLinks variant = some link)
    (h1 : jsEndsWith "_deeplink_ios" variant = false)
    (h2 : jsEndsWith "_deeplink_android" variant = false) :
    targetKeyOf productLinks variant = some variant := by
  have hmem : variant ∈ productLinks.map Prod.fst := mem_keys_of_jsGet_some hl
  have hmemf : variant ∈ validKeysOf productLinks := by
    simp [validKeysOf, List.mem_filter, hmem, h1, h2]
  have hfind :
      ((validKeysOf productLinks).find? fun k => lowerStr k = lowerStr variant).isSome
        = true :=
    find?_isSome_of_mem hmemf (by simp)
  simp [targetKeyOf, hv, hfind]

/-- With an exact key match and a truthy stored value, `targetLink` is the
stored web URL. -/
theorem targetLinkOf_exact {productLinks : VariantMap} {variant link : String}
    (hl : jsGet productLinks variant = some link) (hlink : link ≠ "") :
    targetLinkOf productLinks (some variant) = link := by
  simp [targetLinkOf, jsKeyStr, hl, hlink]

/-- C3 (amended): with a non-empty variant that is a plain key of the
product's `VariantMap` (matched in its exact casing), a truthy stored web URL
and no `_deeplink_android` key, `targetLink` still resolves to the plain
entry, and the short fallback timers of the Android Chromium and iOS
standalone branches navigate to `targetLink`; the Android in-app branch's
timer instead navigates to the absolute site home URL
`https://www.outdoorsavannah.com`, not to `targetLink` (source lines
461-518). -/
theorem c3_plain_variant_fallback_timers (productKey variant link : String)
    (table : LinkTable) (productLinks : VariantMap) (hash pathname : String)
    (hpk : jsGet table productKey = some productLinks)
    (hv : variant ≠ "")
    (hl : jsGet productLinks variant = some link)
    (hlink : link ≠ "")
    (h1 : jsEndsWith "_deeplink_ios" variant = false)
    (h2 : jsEndsWith "_deeplink_android" variant = false)
    (hda : jsGet productLinks (variant ++ "_deeplink_android") = none) :
    dispatch productKey ⟨some variant, hash, pathname, none⟩ androidChromiumCtx
        (some table) =
      [⟨.hrefK, .now, none⟩, ⟨.replaceK, .overlayTap 20, some link⟩,
       ⟨.replaceK, .timerIfFast 900 1200, some link⟩]
    ∧ dispatch productKey ⟨some variant, hash, pathname, none⟩ iosStandaloneCtx
        (some table) =
      [⟨.replaceK, .overlayTap 50, some link⟩,
       ⟨.hrefK, .timerIfFast 900 1200, some link⟩]
    ∧ dispatch productKey ⟨some variant, hash, pathname, none⟩ androidInAppCtx
        (some table) =
      [⟨.hrefK, .now, none⟩, ⟨.replaceK, .timer 2400, some siteHomeUrl⟩] := by
  have hev := @effectiveVariant_query productKey variant hv hash pathname none
  have htk := targetKeyOf_exact hv hl h1 h2
  have htl := targetLinkOf_exact hl hlink
  refine ⟨?_, ?_, ?_⟩ <;>
    simp [dispatch, hev, hv, hpk, postFetchEvents, htk, htl, hda,
      androidChromiumCtx, iosStandaloneCtx, androidInAppCtx, jsKeyStr,
      normalizeIntentLink]

/-- Witness for C3 at a concrete table without deep-link keys. -/
theorem c3_plain_variant_fallback_timers_witness :
    dispatch "amzn" ⟨some "store", "", "/affiliate/amzn/store.html", none⟩
        androidChromiumCtx (some c3Table) =
      [⟨.hrefK, .now, none⟩,
       ⟨.replaceK, .overlayTap 20, some "https://www.amazon.com/shop/outdoorsavannah"⟩,
       ⟨.replaceK, .timerIfFast 900 1200,
        some "https://www.amazon.com/shop/outdoorsavannah"⟩]
    ∧ dispatch "amzn" ⟨some "store", "", "/affiliate/amzn/store.html", none⟩
        iosStandaloneCtx (some c3Table) =
      [⟨.replaceK, .overlayTap 50, some "https://www.amazon.com/shop/outdoorsavannah"⟩,
       ⟨.hrefK, .timerIfFast 900 1200,
        some "https://www.amazon.com/shop/outdoorsavannah"⟩]
    ∧ dispatch "amzn" ⟨some "store", "", "/affiliate/amzn/store.html", none⟩
        androidInAppCtx (some c3Table) =
      [⟨.hrefK, .now, none⟩, ⟨.replaceK, .timer 2400, some siteHomeUrl⟩] :=
  c3_plain_variant_fallback_timers "amzn" "store"
    "https://www.amazon.com/shop/outdoorsavannah" c3Table c3ProductLinks
    "" "/affiliate/amzn/store.html" (by decide) (by decide) (by decide)
    (by decide) (by decide) (by decide) (by decide)

/-- C9: with `isMobile` false the run is one of the four web-only traces:
no navigation at all, one immediate `replace` to the site root, one to the
canonical product path, or one to `targetLink` (source lines 449-452).  In
particular no deep-link navigation - nothing derived from a
`_deeplink_ios`/`_deeplink_android` field, no `intent://` normalization, no
`x-safari-` prefix and no timer - ever happens on desktop, whatever platform
fields the `VariantMap` holds and whatever the remaining context flags say. -/
theorem c9_desktop_never_deeplinks (productKey : String) (page : PageUrl)
    (ctx : NavContext) (fetched : Option LinkTable)
    (h : ctx.isMobile = false) :
    dispatch productKey page ctx fetched = []
    ∨ dispatch productKey page ctx fetched = [⟨.replaceK, .now, some "/"⟩]
    ∨ dispatch productKey page ctx fetched =
        [⟨.replaceK, .now, some ("/" ++ productKey ++ "/")⟩]
    ∨ dispatch productKey page ctx fetched =
        [⟨.replaceK, .now, some (resolvedTargetLink productKey page fetched)⟩] := by
  by_cases hs : page.skipredirectParam = some "true"
  · exact Or.inl (by simp [dispatch, hs])
  by_cases hv : effectiveVariant productKey page = ""
  · by_cases hh : productKey = "home"
    · subst hh
      exact Or.inr (Or.inl (by simp [dispatch, hs, hv, emptyVariantEvents]))
    · by_cases ha : productKey = "amzn"
      · subst ha
        have hamzn : emptyVariantEvents "amzn" = [] := by decide
        exact Or.inl (by simp [dispatch, hs, hv, hamzn])
      · exact Or.inr (Or.inr (Or.inl
          (by simp [dispatch, hs, hv, emptyVariantEvents, hh, ha])))
  cases fetched with
  | none => exact Or.inr (Or.inl (by simp [dispatch, hs, hv]))
  | some t =>
    cases hpl : jsGet t productKey with
    | none => exact Or.inr (Or.inl (by simp [dispatch, hs, hv, hpl]))
    | some pl =>
      refine Or.inr (Or.inr (Or.inr ?_))
      simp [dispatch, hs, hv, hpl, postFetchEvents, h,
        resolvedTargetLink, resolvedTargetKey, resolvedProductLinks]

/-- Witness for C9 at a concrete desktop input. -/
theorem c9_desktop_never_deeplinks_witness :
    dispatch "amzn" c3Page desktopCtx (some c3Table) = []
    ∨ dispatch "amzn" c3Page desktopCtx (some c3Table) = [⟨.replaceK, .now, some "/"⟩]
    ∨ dispatch "amzn" c3Page desktopCtx (some c3Table) =
        [⟨.replaceK, .now, some ("/" ++ "amzn" ++ "/")⟩]
    ∨ dispatch "amzn" c3Page desktopCtx (some c3Table) =
        [⟨.replaceK, .now, some (resolvedTargetLink "amzn" c3Page (some c3Table))⟩] :=
  c9_desktop_never_deeplinks "amzn" c3Page desktopCtx (some c3Table) rfl

/-- A character allowed in a URL scheme: a letter, digit, `+`, `-` or `.`. -/
def isSchemeChar (c : Char) : Bool :=
  (65 ≤ c.toNat ∧ c.toNat ≤ 90) ∨ (97 ≤ c.toNat ∧ c.toNat ≤ 122) ∨
  (48 ≤ c.toNat ∧ c.toNat ≤ 57) ∨ c = '+' ∨ c = '-' ∨ c = '.'

/-- A raw custom app scheme URL in the sense of the spec's data model
(`plain scheme:// form`): a non-empty scheme of scheme characters, `://`,
and the scheme is not plain `http`/`https`. -/
def hasCustomScheme (s : String) : Bool :=
  let pre := s.data.takeWhile (· ≠ ':')
  !pre.isEmpty && pre.all isSchemeChar &&
  ("://").data.isPrefixOf (s.data.drop pre.length) &&
  !(⟨pre.map lowerChar⟩ : String) = "http" && !(⟨pre.map lowerChar⟩ : String) = "https"

/-- The four destination classes exactly as claim C6 states them: the site
root (`/`, or the absolute site home URL the in-app timers hard-code), the
canonical product path, the resolved `targetLink`, or a syntactic platform
deep link (`intent://`, `x-safari-` prefixed, or a raw custom scheme).  A
`none` destination is the JS `undefined` assigned to `window.location.href`;
the browser coerces it to the page-relative URL `undefined`, which is in no
class, so `none` is in no class. -/
def destInClaimClasses (productKey targetLink : String) (d : Option String) : Bool :=
  match d with
  | none => false
  | some s =>
    s = "/" || s = siteHomeUrl || s = ("/" ++ productKey ++ "/") || s = targetLink ||
    jsStartsWith "intent://" s || jsStartsWith "x-safari-" s || hasCustomScheme s

/-- A list is a prefix of itself followed by anything. -/
theorem isPrefixOf_append_self (l t : List Char) : l.isPrefixOf (l ++ t) = true := by
  induction l with
  | nil => simp [List.isPrefixOf]
  | cons c rest ih => simp [List.isPrefixOf, ih]

/-- `p ++ t` starts with `p`. -/
theorem jsStartsWith_append (p t : String) : jsStartsWith p (p ++ t) = true := by
  cases p with
  | mk pd =>
    cases t with
    | mk td => simp [jsStartsWith, String.append, isPrefixOf_append_self]

/-- C6 counterexample: with a `VariantMap` holding only a plain web URL, the
Android Chromium branch still assigns the absent `_deeplink_android` field -
JS `undefined` - to `window.location.href` (source line 477), a navigation
the browser coerces to the page-relative URL `undefined`; neither the
`undefined` value nor that coerced URL lies in any of the claim's four
destination classes, so "no other destination is ever navigated to" fails at
this input. -/
theorem c6_counterexample_absent_deeplink_navigation :
    (⟨.hrefK, .now, none⟩ : NavEvent) ∈
      dispatch "amzn" c3Page androidChromiumCtx (some c3Table)
    ∧ resolvedDeeplinkAndroid "amzn" c3Page (some c3Table) = none
    ∧ destInClaimClasses "amzn"
        (resolvedTargetLink "amzn" c3Page (some c3Table)) none = false
    ∧ destInClaimClasses "amzn"
        (resolvedTargetLink "amzn" c3Page (some c3Table)) (some "undefined") = false := by
  decide

/-- C6 (amended): every navigation the dispatcher issues - for every product
key, page URL, context and fetch outcome - falls in one of the claim's four
destination classes (canonical product path, resolved `targetLink`,
syntactic platform deep link, site root), *except* the deep-link attempts of
the two Android branches, whose destination is exactly the variant's stored
`_deeplink_android` field value: raw in the Chromium branch (source line
477) and passed through `normalizeIntentLink` in the in-app branch (source
lines 465-467).  When that field is absent, the assigned value is the JS
`undefined` (navigating to the page-relative URL `undefined`), and when it
holds a non-deep-link string the navigation targets that string; only then
can a destination fall outside the four classes (source lines 394-522). -/
theorem c6_navigations_classes_except_raw_deeplink (productKey : String)
    (page : PageUrl) (ctx : NavContext) (fetched : Option LinkTable)
    (e : NavEvent) (he : e ∈ dispatch productKey page ctx fetched) :
    destInClaimClasses productKey (resolvedTargetLink productKey page fetched)
        e.dest = true
    ∨ e.dest = resolvedDeeplinkAndroid productKey page fetched
    ∨ e.dest = normalizeIntentLink (resolvedDeeplinkAndroid productKey page fetched)
        (resolvedTargetLink productKey page fetched) := by
  by_cases hs : page.skipredirectParam = some "true"
  · simp [dispatch, hs] at he
  by_cases hv : effectiveVariant productKey page = ""
  · by_cases hh : productKey = "home"
    · subst hh
      simp [dispatch, hs, hv, emptyVariantEvents] at he
      subst he
      exact Or.inl (by simp [destInClaimClasses])
    · by_cases ha : productKey = "amzn"
      · subst ha
        have hamzn : emptyVariantEvents "amzn" = [] := by decide
        simp [dispatch, hs, hv, hamzn] at he
      · simp [dispatch, hs, hv, emptyVariantEvents, hh, ha] at he
        subst he
        exact Or.inl (by simp [destInClaimClasses])
  cases fetched with
  | none =>
    simp [dispatch, hs, hv] at he
    subst he
    exact Or.inl (by simp [destInClaimClasses])
  | some t =>
    cases hpl : jsGet t productKey with
    | none =>
      simp [dispatch, hs, hv, hpl] at he
      subst he
      exact Or.inl (by simp [destInClaimClasses])
    | some pl =>
      have htl : targetLinkOf pl (targetKeyOf pl (effectiveVariant productKey page)) =
          resolvedTargetLink productKey page (some t) := by
        simp [resolvedTargetLink, resolvedTargetKey, resolvedProductLinks, hpl]
      have hdl : jsGet pl
            (jsKeyStr (targetKeyOf pl (effectiveVariant productKey page)) ++
              "_deeplink_android") =
          resolvedDeeplinkAndroid productKey page (some t) := by
        simp [resolvedDeeplinkAndroid, resolvedTargetKey, resolvedProductLinks, hpl]
      simp [dispatch, hs, hv, hpl, postFetchEvents] at he
      by_cases hm : ctx.isMobile
      · by_cases hand : ctx.isAndroid
        · by_cases happ : ctx.isAppBrowser
          · simp [hm, hand, happ] at he
            rcases he with he | he <;> subst he
            · exact Or.inr (Or.inr (by simp [htl, hdl]))
            · exact Or.inl (by simp [destInClaimClasses])
          · by_cases hchr : ctx.isChromiumAndroid
            · simp [hm, hand, happ, hchr] at he
              rcases he with he | he | he <;> subst he
              · exact Or.inr (Or.inl (by simp [hdl]))
              · exact Or.inl (by simp [destInClaimClasses, htl])
              · exact Or.inl (by simp [destInClaimClasses, htl])
            · simp [hm, hand, happ, hchr] at he
              subst he
              exact Or.inl (by simp [destInClaimClasses, htl])
        · by_cases hios : ctx.isIOS
          · by_cases happ : ctx.isAppBrowser
            · simp [hm, hand, hios, happ] at he
              rcases he with he | he <;> subst he
              · exact Or.inl (by simp [destInClaimClasses, htl, jsStartsWith_append])
              · exact Or.inl (by simp [destInClaimClasses])
            · simp [hm, hand, hios, happ] at he
              rcases he with he | he <;> subst he
              · exact Or.inl (by simp [destInClaimClasses, htl])
              · exact Or.inl (by simp [destInClaimClasses, htl])
          · simp [hm, hand, hios] at he
            subst he
            exact Or.inl (by simp [destInClaimClasses, htl])
      · simp [hm] at he
        subst he
        exact Or.inl (by simp [destInClaimClasses, htl])

/-- Witness for C6 at a concrete event of a concrete run. -/
theorem c6_navigations_classes_except_raw_deeplink_witness :
    destInClaimClasses "amzn" (resolvedTargetLink "amzn" c3Page (some c3Table))
        (NavEvent.dest ⟨.replaceK, .now, some "https://www.amazon.com/shop/outdoorsavannah"⟩)
        = true
    ∨ NavEvent.dest ⟨.replaceK, .now, some "https://www.amazon.com/shop/outdoorsavannah"⟩
        = resolvedDeeplinkAndroid "amzn" c3Page (some c3Table)
    ∨ NavEvent.dest ⟨.replaceK, .now, some "https://www.amazon.com/shop/outdoorsavannah"⟩
        = normalizeIntentLink (resolvedDeeplinkAndroid "amzn" c3Page (some c3Table))
            (resolvedTargetLink "amzn" c3Page (some c3Table)) :=
  c6_navigations_classes_except_raw_deeplink "amzn" c3Page desktopCtx (some c3Table)
    ⟨.replaceK, .now, some "https://www.amazon.com/shop/outdoorsavannah"⟩
    (by decide)

/-- Witness for C10 at a concrete page URL (the `index.html` case). -/
theorem c10_amzn_filename_variant_witness :
    effectiveVariant "amzn" ⟨none, "", "/affiliate/amzn/index.html", none⟩ = ""
    ∧ dispatch "amzn" ⟨none, "", "/affiliate/amzn/index.html", none⟩
        desktopCtx none = [] := by
  have h := c10_amzn_filename_variant ⟨none, "", "/affiliate/amzn/index.html", none⟩
    desktopCtx none (by decide) (by decide) (by decide)
  exact ⟨by simpa using h.1, h.2 (by decide)⟩

end Affiliate
